import Mathlib

/-!
Verification development for the stripe-connect-invoices command-line tools.

The core of the repository is a single-pass transaction classifier and
aggregator (the `main` loop of the invoices tool): it streams balance
transactions for a chosen account and period, partitions them by status and
type, accumulates running totals, and collects classified records.  This file
embeds that pass, the credential resolver `getStripeClients`, the created-time
window of the listing request, and the exit-code dispositions of both entry
points, and proves the documented properties about them.

Conventions of the embedding:
- All monetary amounts are signed integers in minor currency units (`Int`),
  matching the integer amounts delivered by the ledger API.
- JavaScript `Date` values built as `new Date(secs * 1000)` are represented by
  their epoch-millisecond value, via `jsDate`.
- The dynamically keyed bucket lookup `taxesAndFees[fee.type]` is fallible: a
  lookup with a tag other than the three keys of the object yields
  `undefined`, and calling `push` on it throws.  Fallible steps are embedded
  in `Except String`.
- JavaScript `push` appends at the end of an array; lists here append with
  `++ [x]`.
-/

namespace StripeConnect

/-! ### String constants of the source -/

def chargeTag : String := "charge"

def payoutTag : String := "payout"

def stripeFeeTag : String := "stripe_fee"

def applicationFeeTag : String := "application_fee"

def taxTag : String := "tax"

def pendingStatus : String := "pending"

def availableStatus : String := "available"

/-- `const knownTransactionTypes = ["charge", "payout", "stripe_fee"]` -/
def knownTransactionTypes : List String := [chargeTag, payoutTag, stripeFeeTag]

/-- The runtime error raised by `taxesAndFees[fee.type].push(...)` when
`fee.type` is none of the three keys of the `taxesAndFees` object: the lookup
yields `undefined` and calling `push` on it throws a `TypeError`. -/
def typeErrorPushMsg : String := "TypeError: taxesAndFees[fee.type] is undefined"

/-! ### Data model -/

/-- Epoch milliseconds of `new Date(secs * 1000)`: a JS `Date` is represented
by its epoch-millisecond value. -/
def jsDate (secs : Int) : Int := secs * 1000

/-- One entry of `transaction.fee_details`. -/
structure FeeDetail where
  type : String
  amount : Int
  currency : String
  description : String
deriving DecidableEq

/-- The expanded `transaction.source` object; `metadata`,
`payment_method_details` and `billing_details` are carried verbatim and are
opaque to the aggregation, so they are embedded as opaque strings. -/
structure Source where
  id : String
  available_on : Int
  metadata : String
  payment_method_details : String
  billing_details : String
deriving DecidableEq

/-- A raw balance transaction as delivered by the ledger listing. -/
structure RawTransaction where
  id : String
  type : String
  status : String
  amount : Int
  net : Int
  fee : Int
  currency : String
  created : Int
  available_on : Int
  source : Source
  fee_details : List FeeDetail
deriving DecidableEq

/-- The record pushed onto `payouts` for a payout transaction. -/
structure Payout where
  transaction_id : String
  id : String
  amount : Int
  fee : Int
  currency : String
  status : String
  created : Int
  available_on : Int
  arrival_date : Int
deriving DecidableEq

/-- The record pushed onto `charges` for a charge transaction. -/
structure Charge where
  transaction_id : String
  id : String
  amount : Int
  fee : Int
  currency : String
  created : Int
  available_on : Int
  metadata : String
  payment_method : String
  billing_details : String
deriving DecidableEq

/-- The record pushed onto one of the `taxesAndFees` buckets for one
fee-detail line item of a charge. -/
structure FeeLineItem where
  transaction_id : String
  charge_id : String
  amount : Int
  currency : String
  description : String
  created : Int
  available_on : Int
deriving DecidableEq

/-- The `totals` accumulator object. -/
structure Totals where
  pending_transactions : Nat
  payouts_gross : Int
  payouts_net : Int
  payouts_fees : Int
  stripe_fees : Int
  charge_gross : Int
  charge_net : Int
  charge_fees : Int
  charge_stripe_fees : Int
  charge_application_fees : Int
  charge_tax_fees : Int
deriving DecidableEq

def initTotals : Totals :=
  { pending_transactions := 0
    payouts_gross := 0
    payouts_net := 0
    payouts_fees := 0
    stripe_fees := 0
    charge_gross := 0
    charge_net := 0
    charge_fees := 0
    charge_stripe_fees := 0
    charge_application_fees := 0
    charge_tax_fees := 0 }

/-- The whole mutable state of the aggregation loop: the three
`taxesAndFees` buckets, the `payouts`, `transactions` (audit list) and
`charges` arrays, and the `totals` object. -/
structure AggState where
  tax : List FeeLineItem
  stripe_fee : List FeeLineItem
  application_fee : List FeeLineItem
  payouts : List Payout
  transactions : List RawTransaction
  charges : List Charge
  totals : Totals
deriving DecidableEq

deriving instance DecidableEq for Except

def initState : AggState :=
  { tax := []
    stripe_fee := []
    application_fee := []
    payouts := []
    transactions := []
    charges := []
    totals := initTotals }

/-! ### Classifier / aggregator -/

/-- The object literal pushed for one fee-detail line item. -/
def feeLineItemOf (tx : RawTransaction) (fee : FeeDetail) : FeeLineItem :=
  { transaction_id := tx.id
    charge_id := tx.source.id
    amount := fee.amount
    currency := fee.currency
    description := fee.description
    created := jsDate tx.created
    available_on := jsDate tx.available_on }

/-- The object literal pushed onto `payouts`.  Note `arrival_date` comes from
the nested source object's `available_on`, while `available_on` is the
transaction's own. -/
def payoutRecordOf (tx : RawTransaction) : Payout :=
  { transaction_id := tx.id
    id := tx.source.id
    amount := tx.amount
    fee := tx.fee
    currency := tx.currency
    status := tx.status
    created := jsDate tx.created
    available_on := jsDate tx.available_on
    arrival_date := jsDate tx.source.available_on }

/-- The object literal pushed onto `charges`. -/
def chargeRecordOf (tx : RawTransaction) : Charge :=
  { transaction_id := tx.id
    id := tx.source.id
    amount := tx.amount
    fee := tx.fee
    currency := tx.currency
    created := jsDate tx.created
    available_on := jsDate tx.available_on
    metadata := tx.source.metadata
    payment_method := tx.source.payment_method_details
    billing_details := tx.source.billing_details }

/-- `taxesAndFees[tag].push(item)`: the object has exactly the keys
`tax`, `stripe_fee` and `application_fee`; any other tag looks up
`undefined` and the `push` call throws. -/
def bucketPush (s : AggState) (tag : String) (item : FeeLineItem) :
    Except String AggState :=
  if tag = taxTag then
    Except.ok { s with tax := s.tax ++ [item] }
  else if tag = stripeFeeTag then
    Except.ok { s with stripe_fee := s.stripe_fee ++ [item] }
  else if tag = applicationFeeTag then
    Except.ok { s with application_fee := s.application_fee ++ [item] }
  else
    Except.error typeErrorPushMsg

/-- The body of `transaction.fee_details.forEach((fee) => ...)`: first the
per-kind fee total is bumped (unknown tags fall into the tax total), then the
line item is pushed onto `taxesAndFees[fee.type]`. -/
def processFeeDetail (tx : RawTransaction) (s : AggState) (fee : FeeDetail) :
    Except String AggState :=
  let s1 :=
    if fee.type = stripeFeeTag then
      { s with totals :=
        { s.totals with charge_stripe_fees := s.totals.charge_stripe_fees + fee.amount } }
    else if fee.type = applicationFeeTag then
      { s with totals :=
        { s.totals with charge_application_fees := s.totals.charge_application_fees + fee.amount } }
    else
      { s with totals :=
        { s.totals with charge_tax_fees := s.totals.charge_tax_fees + fee.amount } }
  bucketPush s1 fee.type (feeLineItemOf tx fee)

/-- `transaction.fee_details.forEach(...)`: process the fee details in order,
propagating the first thrown error (a throw inside `forEach` aborts the whole
iteration and propagates). -/
def foldFees (tx : RawTransaction) (fees : List FeeDetail) (s : AggState) :
    Except String AggState :=
  match fees with
  | [] => Except.ok s
  | fee :: rest =>
      match processFeeDetail tx s fee with
      | Except.error e => Except.error e
      | Except.ok s1 => foldFees tx rest s1

/-- The charge branch: fold the fee details, push the charge record, then bump
the charge fee/gross/net totals (in source order). -/
def chargeStep (tx : RawTransaction) (s : AggState) : Except String AggState :=
  match foldFees tx tx.fee_details s with
  | Except.error e => Except.error e
  | Except.ok sFees =>
      Except.ok { sFees with
        charges := sFees.charges ++ [chargeRecordOf tx]
        totals := { sFees.totals with
          charge_fees := sFees.totals.charge_fees + tx.fee
          charge_gross := sFees.totals.charge_gross + tx.amount
          charge_net := sFees.totals.charge_net + tx.net } }

/-- One iteration of the `for await` loop over listed transactions:
pending transactions bump the pending counter and are skipped; other
non-available statuses are logged and skipped; unknown types are warned about
and skipped; known available transactions are classified by type and then
appended to the `transactions` audit list. -/
def processTransaction (s : AggState) (tx : RawTransaction) :
    Except String AggState :=
  if tx.status = pendingStatus then
    Except.ok { s with totals :=
      { s.totals with pending_transactions := s.totals.pending_transactions + 1 } }
  else if tx.status ≠ availableStatus then
    Except.ok s
  else if tx.type ∉ knownTransactionTypes then
    Except.ok s
  else
    let s1 :=
      if tx.type = stripeFeeTag then
        { s with totals :=
          { s.totals with stripe_fees := s.totals.stripe_fees + tx.amount * (-1) } }
      else s
    let s2 :=
      if tx.type = payoutTag then
        { s1 with
          totals := { s1.totals with
            payouts_gross := s1.totals.payouts_gross + tx.amount * (-1)
            payouts_net := s1.totals.payouts_net + tx.net * (-1)
            payouts_fees := s1.totals.payouts_fees + tx.fee }
          payouts := s1.payouts ++ [payoutRecordOf tx] }
      else s1
    match (if tx.type = chargeTag then chargeStep tx s2 else Except.ok s2) with
    | Except.error e => Except.error e
    | Except.ok s3 =>
        Except.ok { s3 with transactions := s3.transactions ++ [tx] }

/-- The `for await` loop: process the listed transactions in order from a
given accumulator state, propagating the first thrown error. -/
def processList (txs : List RawTransaction) (s : AggState) :
    Except String AggState :=
  match txs with
  | [] => Except.ok s
  | tx :: rest =>
      match processTransaction s tx with
      | Except.error e => Except.error e
      | Except.ok s1 => processList rest s1

/-- The whole classification pass over a listed sequence of transactions,
starting from the freshly initialised accumulators. -/
def processAll (txs : List RawTransaction) : Except String AggState :=
  processList txs initState

/-- A transaction survives the three skip checks (and hence reaches the final
`transactions.push`) exactly when its status is available and its type is one
of the known three. -/
def processedToAudit (tx : RawTransaction) : Bool :=
  decide (tx.status = availableStatus) && decide (tx.type ∈ knownTransactionTypes)

/-! ### Ledger listing window -/

/-- The created-time filter of the `balanceTransactions.list` request:
`created: { gte: period.start, lte: period.end }`, both bounds in epoch
seconds (`valueOf() / 1000`).  A transaction with created time `c` is listed
iff this evaluates to `true`. -/
def listedInPeriod (pstart pend c : Int) : Bool :=
  decide (pstart ≤ c) && decide (c ≤ pend)

/-! ### Credential resolver (`getStripeClients`) -/

/-- The environment-variable name prefix that marks a credential. -/
def tokenVarPfx : String := "STRIPE_TOKEN_"

/-- JS `s.startsWith(p)`, embedded on the character sequences of the two
strings. -/
def strStartsWith (s p : String) : Bool := p.data.isPrefixOf s.data

/-- JS `s.slice(n)` for a non-negative index, embedded on the character
sequence. -/
def strDrop (s : String) (n : Nat) : String := String.mk (s.data.drop n)

/-- JS `s.toLowerCase()`, embedded characterwise (the names involved are
ASCII). -/
def strToLower (s : String) : String := String.mk (s.data.map Char.toLower)

/-- JavaScript object assignment `clients[account] = client`: replace the
value in place when the key already exists (keeping its original position in
key order), otherwise append a new entry at the end. -/
def setKey (m : List (String × String)) (k v : String) :
    List (String × String) :=
  if m.any (fun p => p.1 = k) then
    m.map (fun p => if p.1 = k then (k, v) else p)
  else m ++ [(k, v)]

/-- The body of the `Object.keys(process.env).forEach(...)` callback: a
variable whose name starts with `STRIPE_TOKEN_` and whose value is non-empty
stores its value under the lowercased name suffix
(`key.slice(13).toLowerCase()`); every other variable leaves the map alone. -/
def clientsStep (clients : List (String × String)) (kv : String × String) :
    List (String × String) :=
  if strStartsWith kv.1 tokenVarPfx then
    if kv.2 = "" then clients
    else setKey clients (strToLower (strDrop kv.1 13)) kv.2
  else clients

/-- `getStripeClients`: scan the environment snapshot (an ordered list of
name/value pairs) accumulating the `clients` map.  The Stripe client
constructed from a secret is represented by the secret itself, which
determines it. -/
def getStripeClients (env : List (String × String)) :
    List (String × String) :=
  env.foldl clientsStep []

/-- The entry a single environment variable contributes: variables with the
credential prefix and a non-empty value map their lowercased name suffix to
their value; all others contribute nothing. -/
def tokenEntry (kv : String × String) : Option (String × String) :=
  if strStartsWith kv.1 tokenVarPfx ∧ kv.2 ≠ "" then
    some (strToLower (strDrop kv.1 13), kv.2)
  else none

/-! ### Exit-code dispositions -/

/-- The message prefix by which the top-level catch handlers of both entry
points recognise a user-cancelled prompt. -/
def cancelMsgPfx : String := "User force closed the prompt with"

/-- Modelled from the spec: the prompt layer (a third-party library, not part
of this repository) signals user cancellation by rejecting with an error
whose message starts with the recognised cancellation prefix; this predicate
is that recognizable cancellation signal. -/
def isCancellationSignal (message : String) : Bool :=
  strStartsWith message cancelMsgPfx

/-- The `main().catch((error) => ...)` handler shared by both entry points:
exit 0 when the error message carries the prompt-cancellation prefix, exit 1
otherwise. -/
def exitCodeOnError (message : String) : Nat :=
  if strStartsWith message cancelMsgPfx then 0 else 1

/-- The guard in `stripe-connect-tools.js` right after the prompts: when any
of the three responses is missing (as after an interrupted prompt), the
process exits 0; otherwise the run proceeds (no exit decided here). -/
def toolsResponseExit (account period action : Option String) : Option Nat :=
  if account = none || period = none || action = none then some 0 else none

/-! ### Concrete example inputs -/

def sourceEx : Source :=
  { id := "po_1"
    available_on := 1696118400
    metadata := "m"
    payment_method_details := "card"
    billing_details := "b" }

/-- An available stripe_fee balance transaction. -/
def txStripeFeeEx : RawTransaction :=
  { id := "txn_fee_1"
    type := stripeFeeTag
    status := availableStatus
    amount := -123
    net := -123
    fee := 0
    currency := "usd"
    created := 1693612800
    available_on := 1693612800
    source := sourceEx
    fee_details := [] }

/-- An available payout balance transaction. -/
def txPayoutEx : RawTransaction :=
  { id := "txn_po_1"
    type := payoutTag
    status := availableStatus
    amount := -5000
    net := -4950
    fee := 50
    currency := "usd"
    created := 1693699200
    available_on := 1693785600
    source := sourceEx
    fee_details := [] }

/-- A transaction with a status that is neither pending nor available. -/
def txOddStatusEx : RawTransaction :=
  { txStripeFeeEx with id := "txn_odd_1", type := chargeTag, status := "in_transit" }

/-- An available transaction of an unrecognised type. -/
def txOddTypeEx : RawTransaction :=
  { txStripeFeeEx with id := "txn_odd_2", type := "refund" }

/-- A fee detail with the tax tag. -/
def feeTaxEx : FeeDetail :=
  { type := taxTag, amount := 7, currency := "usd", description := "VAT" }

/-- A fee detail with a tag outside the three bucket keys. -/
def feeUnknownEx : FeeDetail :=
  { type := "network_cost", amount := 5, currency := "usd", description := "scheme fee" }

/-- A stripe_fee fee detail of 30. -/
def feeStripeEx : FeeDetail :=
  { type := stripeFeeTag, amount := 30, currency := "usd", description := "Stripe processing fees" }

/-- An available charge whose single fee detail is a stripe_fee of 30. -/
def txChargeEx : RawTransaction :=
  { id := "txn_ch_1"
    type := chargeTag
    status := availableStatus
    amount := 1000
    net := 970
    fee := 30
    currency := "usd"
    created := 1693526400
    available_on := 1693612800
    source := { sourceEx with id := "ch_1" }
    fee_details := [feeStripeEx] }

/-- An available charge carrying one fee detail with an unknown tag. -/
def txChargeUnknownFeeEx : RawTransaction :=
  { txChargeEx with id := "txn_ch_2", fee_details := [feeUnknownEx] }

/-- The state after processing `[txPayoutEx]` from the initial state. -/
def payoutRunState : AggState :=
  { initState with
    totals := { initTotals with
      payouts_gross := 5000, payouts_net := 4950, payouts_fees := 50 }
    payouts := [payoutRecordOf txPayoutEx]
    transactions := [txPayoutEx] }

/-- The state after processing `txChargeEx` from the initial state. -/
def chargeRunState : AggState :=
  { initState with
    stripe_fee := [feeLineItemOf txChargeEx feeStripeEx]
    charges := [chargeRecordOf txChargeEx]
    transactions := [txChargeEx]
    totals := { initTotals with
      charge_gross := 1000, charge_net := 970, charge_fees := 30, charge_stripe_fees := 30 } }

/-- An error message of the shape the prompt layer raises on interruption. -/
def cancelExampleMsg : String := "User force closed the prompt with SIGINT"

/-- An error message of an ordinary (non-cancellation) failure. -/
def otherErrorMsg : String := "StripeAuthenticationError: Invalid API Key provided"

/-- An environment snapshot with one usable credential, one unrelated
variable, and one credential variable with an empty value. -/
def envEx : List (String × String) :=
  [ ( "STRIPE_TOKEN_MAIN", "sk_test_123" ), ( "PATH", "/usr/bin" ),
    ( "STRIPE_TOKEN_EMPTY", "" ) ]

/-- Two credential variables whose names differ only in case, so their
lowercased suffixes collide. -/
def envCollideEx : List (String × String) :=
  [ ( "STRIPE_TOKEN_A", "first_secret" ), ( "STRIPE_TOKEN_a", "second_secret" ) ]

/-! ### C2: created-time window of the listing request -/

/-- C2 counterexample: the listing filter sends `lte: period.end`, so a
transaction created exactly at the period end instant satisfies the filter
and is included — the claimed half-open interval `[start, end)` would have
excluded it (`end < end` is false). -/
theorem c2_end_instant_included :
    listedInPeriod 0 100 100 = true ∧ ¬ ((100 : Int) < 100) := by decide

/-- C2 amended: the listing request covers exactly the closed interval
`[start, end]` in created-time: a transaction with created time `c` is
requested iff `start ≤ c ∧ c ≤ end`; in particular `c = end` is included. -/
theorem c2_listing_window (pstart pend c : Int) :
    listedInPeriod pstart pend c = true ↔ pstart ≤ c ∧ c ≤ pend := by
  simp [listedInPeriod]

theorem c2_listing_window_witness :
    listedInPeriod 0 100 100 = true :=
  (c2_listing_window 0 100 100).mpr (by decide)

/-! ### C6: stripe_fee transactions -/

/-- C6: an available stripe_fee transaction with amount A adds exactly `-A`
to the stripe-fees total, and no classified-record collection (tax,
stripe_fee or application_fee bucket, payouts, charges) gains a record: the
only list that changes is the raw-transaction audit list, which gains the raw
transaction itself, not a classified record. -/
theorem c6_stripe_fee_total (s : AggState) (tx : RawTransaction)
    (hs : tx.status = availableStatus) (ht : tx.type = stripeFeeTag) :
    processTransaction s tx =
      Except.ok { s with
        totals := { s.totals with stripe_fees := s.totals.stripe_fees + tx.amount * (-1) }
        transactions := s.transactions ++ [tx] } := by
  simp [processTransaction, hs, ht, availableStatus, pendingStatus, stripeFeeTag,
    chargeTag, payoutTag, knownTransactionTypes]

theorem c6_stripe_fee_total_witness :
    txStripeFeeEx.status = availableStatus ∧ txStripeFeeEx.type = stripeFeeTag ∧
    processTransaction initState txStripeFeeEx =
      Except.ok { initState with
        totals := { initState.totals with
          stripe_fees := initState.totals.stripe_fees + txStripeFeeEx.amount * (-1) }
        transactions := initState.transactions ++ [txStripeFeeEx] } :=
  ⟨rfl, rfl, c6_stripe_fee_total initState txStripeFeeEx rfl rfl⟩

/-! ### C7: skipped transactions change nothing -/

/-- C7: a transaction whose status is neither pending nor available, or an
available transaction whose type is not among {charge, payout, stripe_fee},
leaves the state completely unchanged (every total including the pending
counter, the audit list, and every classified collection) and processing
returns successfully, continuing with the next transaction. -/
theorem c7_skipped_frame (s : AggState) (tx : RawTransaction)
    (h : (tx.status ≠ pendingStatus ∧ tx.status ≠ availableStatus) ∨
         (tx.status = availableStatus ∧ tx.type ∉ knownTransactionTypes)) :
    processTransaction s tx = Except.ok s := by
  rcases h with ⟨hp, ha⟩ | ⟨ha, ht⟩
  · simp [processTransaction, hp, ha]
  · simp [processTransaction, ha, ht, availableStatus, pendingStatus]

/-! ### C5: payout transactions -/

/-- C5: an available payout with amount A, net N, fee F adds `-A` to
payout-gross, `-N` to payout-net and `F` to payout-fees, and emits exactly
one Payout record; that record's `arrival_date` is the Date of the nested
source object's `available_on` (its `available_on` field being the Date of
the transaction's own), and its `amount` field is the un-negated transaction
amount A. -/
theorem c5_payout_step (s : AggState) (tx : RawTransaction)
    (hs : tx.status = availableStatus) (ht : tx.type = payoutTag) :
    processTransaction s tx =
      Except.ok { s with
        totals := { s.totals with
          payouts_gross := s.totals.payouts_gross + tx.amount * (-1)
          payouts_net := s.totals.payouts_net + tx.net * (-1)
          payouts_fees := s.totals.payouts_fees + tx.fee }
        payouts := s.payouts ++ [payoutRecordOf tx]
        transactions := s.transactions ++ [tx] } ∧
    (payoutRecordOf tx).arrival_date = jsDate tx.source.available_on ∧
    (payoutRecordOf tx).available_on = jsDate tx.available_on ∧
    (payoutRecordOf tx).amount = tx.amount := by
  refine ⟨?_, rfl, rfl, rfl⟩
  simp [processTransaction, hs, ht, availableStatus, pendingStatus, stripeFeeTag,
    chargeTag, payoutTag, knownTransactionTypes]

theorem c5_payout_step_witness :
    txPayoutEx.status = availableStatus ∧ txPayoutEx.type = payoutTag ∧
    (processTransaction initState txPayoutEx =
      Except.ok { initState with
        totals := { initState.totals with
          payouts_gross := initState.totals.payouts_gross + txPayoutEx.amount * (-1)
          payouts_net := initState.totals.payouts_net + txPayoutEx.net * (-1)
          payouts_fees := initState.totals.payouts_fees + txPayoutEx.fee }
        payouts := initState.payouts ++ [payoutRecordOf txPayoutEx]
        transactions := initState.transactions ++ [txPayoutEx] } ∧
     (payoutRecordOf txPayoutEx).arrival_date = jsDate txPayoutEx.source.available_on ∧
     (payoutRecordOf txPayoutEx).available_on = jsDate txPayoutEx.available_on ∧
     (payoutRecordOf txPayoutEx).amount = txPayoutEx.amount) :=
  ⟨rfl, rfl, c5_payout_step initState txPayoutEx rfl rfl⟩

/-! ### C1: fee-detail line items with unknown tags -/

/-- C1 counterexample: processing an available charge carrying a fee-detail
line item whose tag is neither stripe_fee, application_fee nor tax aborts
with a fatal TypeError (the bucket lookup by the raw tag yields undefined),
instead of completing with the item appended to the tax bucket. -/
theorem c1_unknown_tag_aborts :
    feeUnknownEx.type ≠ stripeFeeTag ∧ feeUnknownEx.type ≠ applicationFeeTag ∧
    processTransaction initState txChargeUnknownFeeEx =
      Except.error typeErrorPushMsg := by decide


/-- C1 amended: for a fee-detail line item whose tag is neither stripe_fee
nor application_fee, the classifier always adds the item's amount to the
charge-tax-fees total; it then appends the line item to the tax bucket and
completes successfully only when the tag is exactly `tax` — for any other
unknown tag the bucket lookup fails and processing of the charge aborts with
a fatal TypeError. -/
theorem c1_default_tag_routing (tx : RawTransaction) (s : AggState)
    (fee : FeeDetail) (h1 : fee.type ≠ stripeFeeTag)
    (h2 : fee.type ≠ applicationFeeTag) :
    processFeeDetail tx s fee =
      (if fee.type = taxTag then
        Except.ok { s with
          totals := { s.totals with charge_tax_fees := s.totals.charge_tax_fees + fee.amount }
          tax := s.tax ++ [feeLineItemOf tx fee] }
      else Except.error typeErrorPushMsg) := by
  simp only [stripeFeeTag, applicationFeeTag, taxTag] at h1 h2 ⊢
  by_cases h3 : fee.type = "tax"
  · simp [processFeeDetail, bucketPush, h1, h2, h3, stripeFeeTag, applicationFeeTag, taxTag]
  · simp [processFeeDetail, bucketPush, h1, h2, h3, stripeFeeTag, applicationFeeTag, taxTag]

theorem c1_default_tag_routing_witness :
    (feeTaxEx.type ≠ stripeFeeTag ∧ feeTaxEx.type ≠ applicationFeeTag ∧
      processFeeDetail txChargeEx initState feeTaxEx =
        (if feeTaxEx.type = taxTag then
          Except.ok { initState with
            totals := { initState.totals with
              charge_tax_fees := initState.totals.charge_tax_fees + feeTaxEx.amount }
            tax := initState.tax ++ [feeLineItemOf txChargeEx feeTaxEx] }
        else Except.error typeErrorPushMsg)) ∧
    (feeUnknownEx.type ≠ stripeFeeTag ∧ feeUnknownEx.type ≠ applicationFeeTag ∧
      processFeeDetail txChargeEx initState feeUnknownEx =
        (if feeUnknownEx.type = taxTag then
          Except.ok { initState with
            totals := { initState.totals with
              charge_tax_fees := initState.totals.charge_tax_fees + feeUnknownEx.amount }
            tax := initState.tax ++ [feeLineItemOf txChargeEx feeUnknownEx] }
        else Except.error typeErrorPushMsg)) :=
  ⟨⟨by decide, by decide,
    c1_default_tag_routing txChargeEx initState feeTaxEx (by decide) (by decide)⟩,
   ⟨by decide, by decide,
    c1_default_tag_routing txChargeEx initState feeUnknownEx (by decide) (by decide)⟩⟩

theorem c7_skipped_frame_witness :
    ((txOddStatusEx.status ≠ pendingStatus ∧ txOddStatusEx.status ≠ availableStatus) ∧
      processTransaction initState txOddStatusEx = Except.ok initState) ∧
    ((txOddTypeEx.status = availableStatus ∧ txOddTypeEx.type ∉ knownTransactionTypes) ∧
      processTransaction initState txOddTypeEx = Except.ok initState) :=
  ⟨⟨by decide, c7_skipped_frame initState txOddStatusEx (Or.inl (by decide))⟩,
   ⟨by decide, c7_skipped_frame initState txOddTypeEx (Or.inr (by decide))⟩⟩

/-! ### Helper lemmas about fee-detail processing -/

/-- Frame and accounting facts for one successfully processed fee detail:
the audit list, payouts, charges, and the charge gross/net/fee totals are
untouched; the three per-kind fee totals gain the item's amount in exactly
one place, and the three buckets gain exactly one line item altogether. -/
theorem processFeeDetail_ok (tx : RawTransaction) (s : AggState) (fee : FeeDetail)
    (s1 : AggState) (h : processFeeDetail tx s fee = Except.ok s1) :
    s1.transactions = s.transactions ∧
    s1.payouts = s.payouts ∧
    s1.charges = s.charges ∧
    s1.totals.charge_gross = s.totals.charge_gross ∧
    s1.totals.charge_net = s.totals.charge_net ∧
    s1.totals.charge_fees = s.totals.charge_fees ∧
    s1.totals.charge_stripe_fees + s1.totals.charge_application_fees +
        s1.totals.charge_tax_fees
      = s.totals.charge_stripe_fees + s.totals.charge_application_fees +
          s.totals.charge_tax_fees + fee.amount ∧
    s1.tax.length + s1.stripe_fee.length + s1.application_fee.length
      = s.tax.length + s.stripe_fee.length + s.application_fee.length + 1 := by
  simp only [processFeeDetail, bucketPush, stripeFeeTag, applicationFeeTag,
    taxTag] at h
  by_cases htax : fee.type = "tax"
  · have h1 : ¬ fee.type = "stripe_fee" := by rw [htax]; decide
    have h2 : ¬ fee.type = "application_fee" := by rw [htax]; decide
    simp [htax, h1, h2] at h
    subst h
    refine ⟨rfl, rfl, rfl, rfl, rfl, rfl, by ring, ?_⟩
    simp [List.length_append]
    omega
  · by_cases h1 : fee.type = "stripe_fee"
    · have h2 : ¬ fee.type = "application_fee" := by rw [h1]; decide
      simp [htax, h1, h2] at h
      subst h
      refine ⟨rfl, rfl, rfl, rfl, rfl, rfl, by ring, ?_⟩
      simp [List.length_append]
      omega
    · by_cases h2 : fee.type = "application_fee"
      · simp [htax, h1, h2] at h
        subst h
        refine ⟨rfl, rfl, rfl, rfl, rfl, rfl, by ring, ?_⟩
        simp [List.length_append]
        omega
      · simp [htax, h1, h2] at h

/-- The fee-detail fold, when it completes, preserves the audit list, payouts,
charges and the charge gross/net/fee totals, adds the per-charge sum of
fee-detail amounts to the three per-kind fee totals together, and adds one
line item per fee detail to the three buckets together. -/
theorem foldFees_ok (tx : RawTransaction) (fees : List FeeDetail) :
    ∀ (s s2 : AggState), foldFees tx fees s = Except.ok s2 →
      s2.transactions = s.transactions ∧
      s2.payouts = s.payouts ∧
      s2.charges = s.charges ∧
      s2.totals.charge_gross = s.totals.charge_gross ∧
      s2.totals.charge_net = s.totals.charge_net ∧
      s2.totals.charge_fees = s.totals.charge_fees ∧
      s2.totals.charge_stripe_fees + s2.totals.charge_application_fees +
          s2.totals.charge_tax_fees
        = s.totals.charge_stripe_fees + s.totals.charge_application_fees +
            s.totals.charge_tax_fees + (fees.map FeeDetail.amount).sum ∧
      s2.tax.length + s2.stripe_fee.length + s2.application_fee.length
        = s.tax.length + s.stripe_fee.length + s.application_fee.length +
            fees.length := by
  induction fees with
  | nil =>
      intro s s2 h
      simp [foldFees] at h
      subst h
      simp
  | cons fee rest ih =>
      intro s s2 h
      cases hstep : processFeeDetail tx s fee with
      | error e => simp [foldFees, hstep] at h
      | ok s1 =>
          simp only [foldFees, hstep] at h
          obtain ⟨e1, e2, e3, e4, e5, e6, e7, e8⟩ :=
            processFeeDetail_ok tx s fee s1 hstep
          obtain ⟨f1, f2, f3, f4, f5, f6, f7, f8⟩ := ih s1 s2 h
          refine ⟨f1.trans e1, f2.trans e2, f3.trans e3, f4.trans e4,
            f5.trans e5, f6.trans e6, ?_, ?_⟩
          · rw [f7, e7]
            simp [List.map_cons]
            ring
          · rw [f8, e8]
            simp [List.length_cons]
            omega

/-- The charge branch, when it completes, appends exactly one Charge record,
preserves the audit list and payouts, bumps charge gross/net/fees by the
transaction's amount/net/fee, and routes the whole sum of fee-detail amounts
into the three per-kind fee totals (one bucket line item per fee detail). -/
theorem chargeStep_ok (tx : RawTransaction) (s s3 : AggState)
    (h : chargeStep tx s = Except.ok s3) :
    s3.transactions = s.transactions ∧
    s3.payouts = s.payouts ∧
    s3.charges = s.charges ++ [chargeRecordOf tx] ∧
    s3.totals.charge_gross = s.totals.charge_gross + tx.amount ∧
    s3.totals.charge_net = s.totals.charge_net + tx.net ∧
    s3.totals.charge_fees = s.totals.charge_fees + tx.fee ∧
    s3.totals.charge_stripe_fees + s3.totals.charge_application_fees +
        s3.totals.charge_tax_fees
      = s.totals.charge_stripe_fees + s.totals.charge_application_fees +
          s.totals.charge_tax_fees + (tx.fee_details.map FeeDetail.amount).sum ∧
    s3.tax.length + s3.stripe_fee.length + s3.application_fee.length
      = s.tax.length + s.stripe_fee.length + s.application_fee.length +
          tx.fee_details.length := by
  unfold chargeStep at h
  cases hfold : foldFees tx tx.fee_details s with
  | error e => rw [hfold] at h; cases h
  | ok sFees =>
      rw [hfold] at h
      obtain ⟨e1, e2, e3, e4, e5, e6, e7, e8⟩ :=
        foldFees_ok tx tx.fee_details s sFees hfold
      simp only [Except.ok.injEq] at h
      subst h
      exact ⟨e1, e2, by rw [e3], by rw [e4], by rw [e5], by rw [e6], e7, e8⟩

/-- A successfully processed transaction is appended to the `transactions`
audit list iff it survives the three skip checks (available status, known
type); otherwise the audit list is unchanged. -/
theorem processTransaction_audit (s : AggState) (tx : RawTransaction)
    (s1 : AggState) (h : processTransaction s tx = Except.ok s1) :
    s1.transactions =
      s.transactions ++ (if processedToAudit tx then [tx] else []) := by
  unfold processTransaction at h
  by_cases hp : tx.status = pendingStatus
  · have hna : ¬ tx.status = availableStatus := by
      rw [hp]; decide
    simp [hp] at h
    subst h
    simp [processedToAudit, hna]
  · by_cases ha : tx.status = availableStatus
    · by_cases hk : tx.type ∈ knownTransactionTypes
      · have haudit : processedToAudit tx = true := by
          simp [processedToAudit, ha, hk]
        simp only [knownTransactionTypes, taxTag, chargeTag, payoutTag,
          stripeFeeTag, List.mem_cons, List.mem_singleton,
          List.not_mem_nil, or_false] at hk
        simp only [ha, availableStatus, pendingStatus, chargeTag, payoutTag,
          stripeFeeTag, knownTransactionTypes] at h hp
        rcases hk with ht | ht | ht
        · -- charge
          simp [ht] at h
          cases hc : chargeStep tx s with
          | error e => rw [hc] at h; cases h
          | ok s3 =>
              rw [hc] at h
              simp only [Except.ok.injEq] at h
              subst h
              obtain ⟨e1, -, -, -, -, -, -, -⟩ := chargeStep_ok tx s s3 hc
              simp [haudit, e1]
        · -- payout
          simp [ht] at h
          subst h
          simp [haudit]
        · -- stripe_fee
          simp [ht] at h
          subst h
          simp [haudit]
      · simp [ha, hk, availableStatus, pendingStatus] at h
        subst h
        simp [processedToAudit, hk]
    · simp [hp, ha] at h
      subst h
      simp [processedToAudit, ha]

/-- The loop over a transaction list, when it completes, extends the audit
list by exactly the transactions that survive the skip checks, in order. -/
theorem processList_audit (txs : List RawTransaction) :
    ∀ (s st : AggState), processList txs s = Except.ok st →
      st.transactions = s.transactions ++ txs.filter processedToAudit := by
  induction txs with
  | nil =>
      intro s st h
      simp [processList] at h
      subst h
      simp
  | cons tx rest ih =>
      intro s st h
      cases hstep : processTransaction s tx with
      | error e => simp [processList, hstep] at h
      | ok s1 =>
          simp only [processList, hstep] at h
          have h1 := processTransaction_audit s tx s1 hstep
          have h2 := ih s1 st h
          rw [h2, h1]
          by_cases haud : processedToAudit tx <;>
            simp [haud, List.filter_cons, List.append_assoc]

/-! ### C3: contents of the audit list -/

/-- C3 counterexample: an available stripe_fee transaction is appended to
the `transactions` audit list (the final push runs for every non-skipped
transaction, stripe_fee included), contradicting the claim that no
stripe_fee transaction appears there. -/
theorem c3_stripe_fee_in_audit :
    txStripeFeeEx.type = stripeFeeTag ∧
    (processAll [txStripeFeeEx]).toOption.map (fun st => st.transactions)
      = some [txStripeFeeEx] := by decide

/-- C3 amended: when the pass completes, the audit list contains exactly the
non-skipped transactions — those with available status and type among
{charge, payout, stripe_fee} — in input order; stripe_fee transactions are
included, not excluded. -/
theorem c3_audit_exactly_processed (txs : List RawTransaction) (st : AggState)
    (h : processAll txs = Except.ok st) :
    st.transactions = txs.filter processedToAudit := by
  have := processList_audit txs initState st h
  simpa [initState] using this

theorem c3_audit_exactly_processed_witness :
    processAll [txPayoutEx, txOddTypeEx] = Except.ok payoutRunState ∧
    payoutRunState.transactions
      = [txPayoutEx, txOddTypeEx].filter processedToAudit :=
  ⟨by decide, c3_audit_exactly_processed [txPayoutEx, txOddTypeEx]
    payoutRunState (by decide)⟩

/-! ### C4: charge accounting invariant -/

/-- C4: for an available charge transaction whose processing completes,
charge-gross/net/fees grow by the transaction's amount/net/fee, the three
charge fee totals (stripe, application, tax) together grow by exactly the
sum of all the charge's fee-detail amounts, and the three fee buckets gain
exactly one line item per fee detail — no item dropped, none counted
twice. -/
theorem c4_charge_accounting (s : AggState) (tx : RawTransaction)
    (s1 : AggState) (hs : tx.status = availableStatus)
    (ht : tx.type = chargeTag) (h : processTransaction s tx = Except.ok s1) :
    s1.totals.charge_gross = s.totals.charge_gross + tx.amount ∧
    s1.totals.charge_net = s.totals.charge_net + tx.net ∧
    s1.totals.charge_fees = s.totals.charge_fees + tx.fee ∧
    s1.totals.charge_stripe_fees + s1.totals.charge_application_fees +
        s1.totals.charge_tax_fees
      = s.totals.charge_stripe_fees + s.totals.charge_application_fees +
          s.totals.charge_tax_fees + (tx.fee_details.map FeeDetail.amount).sum ∧
    s1.tax.length + s1.stripe_fee.length + s1.application_fee.length
      = s.tax.length + s.stripe_fee.length + s.application_fee.length +
          tx.fee_details.length := by
  unfold processTransaction at h
  simp only [hs, ht, availableStatus, pendingStatus, chargeTag, payoutTag,
    stripeFeeTag, knownTransactionTypes] at h
  simp at h
  cases hc : chargeStep tx s with
  | error e => rw [hc] at h; cases h
  | ok s3 =>
      rw [hc] at h
      simp only [Except.ok.injEq] at h
      subst h
      obtain ⟨-, -, -, e4, e5, e6, e7, e8⟩ := chargeStep_ok tx s s3 hc
      exact ⟨e4, e5, e6, e7, e8⟩

theorem c4_charge_accounting_witness :
    txChargeEx.status = availableStatus ∧ txChargeEx.type = chargeTag ∧
    processTransaction initState txChargeEx = Except.ok chargeRunState ∧
    (chargeRunState.totals.charge_gross
        = initState.totals.charge_gross + txChargeEx.amount ∧
      chargeRunState.totals.charge_net
        = initState.totals.charge_net + txChargeEx.net ∧
      chargeRunState.totals.charge_fees
        = initState.totals.charge_fees + txChargeEx.fee ∧
      chargeRunState.totals.charge_stripe_fees +
          chargeRunState.totals.charge_application_fees +
          chargeRunState.totals.charge_tax_fees
        = initState.totals.charge_stripe_fees +
            initState.totals.charge_application_fees +
            initState.totals.charge_tax_fees +
            (txChargeEx.fee_details.map FeeDetail.amount).sum ∧
      chargeRunState.tax.length + chargeRunState.stripe_fee.length +
          chargeRunState.application_fee.length
        = initState.tax.length + initState.stripe_fee.length +
            initState.application_fee.length + txChargeEx.fee_details.length) :=
  ⟨rfl, rfl, by decide,
    c4_charge_accounting initState txChargeEx chargeRunState rfl rfl (by decide)⟩

/-! ### C8: exit statuses -/

/-- C8: interrupting an interactive prompt terminates the process with exit
status 0 — in either tool via the catch handler when the prompt layer raises
its recognizable cancellation signal, and in the extended tool additionally
via the missing-response guard right after the prompts — while any other
unhandled failure reaching the catch handler terminates with exit status 1. -/
theorem c8_exit_codes (message : String) (account period action : Option String) :
    (isCancellationSignal message = true → exitCodeOnError message = 0) ∧
    (isCancellationSignal message = false → exitCodeOnError message = 1) ∧
    (account = none ∨ period = none ∨ action = none →
      toolsResponseExit account period action = some 0) := by
  refine ⟨fun h => ?_, fun h => ?_, fun h => ?_⟩
  · simp only [isCancellationSignal] at h
    simp [exitCodeOnError, h]
  · simp only [isCancellationSignal] at h
    simp [exitCodeOnError, h]
  · rcases h with h | h | h <;> simp [toolsResponseExit, h]

set_option maxRecDepth 10000 in
theorem c8_exit_codes_witness :
    (isCancellationSignal cancelExampleMsg = true ∧
      exitCodeOnError cancelExampleMsg = 0) ∧
    (isCancellationSignal otherErrorMsg = false ∧
      exitCodeOnError otherErrorMsg = 1) ∧
    ((none : Option String) = none ∧
      toolsResponseExit none (some availableStatus) (some chargeTag) = some 0) :=
  ⟨⟨by decide, (c8_exit_codes cancelExampleMsg none none none).1 (by decide)⟩,
   ⟨by decide, (c8_exit_codes otherErrorMsg none none none).2.1 (by decide)⟩,
   ⟨rfl, (c8_exit_codes otherErrorMsg none (some availableStatus)
      (some chargeTag)).2.2 (Or.inl rfl)⟩⟩

/-! ### C10: the pass is a pure function of its input -/

/-- C10: the classification pass is a pure function of the input sequence
with no hidden state: two runs over the same fixed sequence of raw
transactions yield identical totals and identical classified-record
collections. -/
theorem c10_pass_deterministic (txs : List RawTransaction) (s1 s2 : AggState)
    (h1 : processAll txs = Except.ok s1) (h2 : processAll txs = Except.ok s2) :
    s1.totals = s2.totals ∧ s1.tax = s2.tax ∧ s1.stripe_fee = s2.stripe_fee ∧
    s1.application_fee = s2.application_fee ∧ s1.payouts = s2.payouts ∧
    s1.charges = s2.charges ∧ s1.transactions = s2.transactions := by
  have h := h1.symm.trans h2
  simp only [Except.ok.injEq] at h
  subst h
  exact ⟨rfl, rfl, rfl, rfl, rfl, rfl, rfl⟩

theorem c10_pass_deterministic_witness :
    processAll [txPayoutEx] = Except.ok payoutRunState ∧
    (payoutRunState.totals = payoutRunState.totals ∧
      payoutRunState.tax = payoutRunState.tax ∧
      payoutRunState.stripe_fee = payoutRunState.stripe_fee ∧
      payoutRunState.application_fee = payoutRunState.application_fee ∧
      payoutRunState.payouts = payoutRunState.payouts ∧
      payoutRunState.charges = payoutRunState.charges ∧
      payoutRunState.transactions = payoutRunState.transactions) :=
  ⟨by decide, c10_pass_deterministic [txPayoutEx] payoutRunState payoutRunState
    (by decide) (by decide)⟩

/-! ### Helper lemmas about the credential resolver -/

/-- Whether a map already carries key `k` (the key-exists test of `setKey`). -/
def hasKey (m : List (String × String)) (k : String) : Bool :=
  m.any (fun p => p.1 = k)

/-- One resolver step is determined by the entry the variable contributes. -/
theorem clientsStep_eq (m : List (String × String)) (kv : String × String) :
    clientsStep m kv =
      match tokenEntry kv with
      | none => m
      | some av => setKey m av.1 av.2 := by
  unfold clientsStep tokenEntry
  by_cases hpfx : strStartsWith kv.1 tokenVarPfx
  · by_cases hempty : kv.2 = "" <;> simp [hpfx, hempty]
  · simp [hpfx]

/-- The resolver fold over the environment equals the `setKey` fold over the
entries contributed by matching variables. -/
theorem foldl_clientsStep_eq (env : List (String × String)) :
    ∀ (m : List (String × String)),
      env.foldl clientsStep m =
        (env.filterMap tokenEntry).foldl (fun m av => setKey m av.1 av.2) m := by
  induction env with
  | nil => intro m; rfl
  | cons kv rest ih =>
      intro m
      rw [List.foldl_cons, clientsStep_eq]
      cases hkv : tokenEntry kv with
      | none => simp [List.filterMap_cons, hkv, ih]
      | some av => simp [List.filterMap_cons, hkv, ih]

/-- Setting a fresh key appends the binding at the end. -/
theorem setKey_of_fresh (m : List (String × String)) (k v : String)
    (h : hasKey m k = false) : setKey m k v = m ++ [(k, v)] := by
  unfold setKey
  unfold hasKey at h
  simp [h]

/-- `hasKey` across an appended singleton. -/
theorem hasKey_append_single (m : List (String × String)) (k v a : String) :
    hasKey (m ++ [(k, v)]) a = (hasKey m a || decide (k = a)) := by
  simp [hasKey, List.any_append]

/-- Folding `setKey` over bindings with pairwise-distinct keys, all fresh for
the starting map, appends them in order. -/
theorem foldl_setKey_append (L : List (String × String)) :
    ∀ (m : List (String × String)),
      ((L.map Prod.fst).Nodup) →
      (∀ a ∈ L.map Prod.fst, hasKey m a = false) →
      L.foldl (fun m av => setKey m av.1 av.2) m = m ++ L := by
  induction L with
  | nil => intro m _ _; simp
  | cons av rest ih =>
      intro m hnd hfresh
      have hk : hasKey m av.1 = false := hfresh av.1 (by simp)
      rw [List.foldl_cons, setKey_of_fresh m av.1 av.2 hk]
      have hnd' : (rest.map Prod.fst).Nodup := by
        simpa [List.nodup_cons] using hnd.of_cons
      have hnotin : av.1 ∉ rest.map Prod.fst := by
        simp only [List.map_cons, List.nodup_cons] at hnd
        exact hnd.1
      have hfresh' : ∀ a ∈ rest.map Prod.fst, hasKey (m ++ [(av.1, av.2)]) a = false := by
        intro a ha
        rw [hasKey_append_single]
        have h1 : hasKey m a = false := hfresh a (by simp [ha])
        have h2 : av.1 ≠ a := fun hcontra => hnotin (hcontra ▸ ha)
        simp [h1, h2]
      rw [ih (m ++ [(av.1, av.2)]) hnd' hfresh']
      simp

/-! ### C9: credential resolver -/

set_option maxRecDepth 10000 in
/-- C9 counterexample: two credential variables whose names differ only in
case collide after lowercasing; the later assignment overwrites the earlier
one, so the mapping carries no entry from the lowercased suffix `a` to the
first variable's value, contrary to the claim that every matching variable
contributes an entry to its own value. -/
theorem c9_suffix_collision :
    getStripeClients envCollideEx = [ ( "a", "second_secret" ) ] ∧
    ( "a", "first_secret" ) ∉ getStripeClients envCollideEx := by decide

/-- C9 amended: when the lowercased suffixes of the matching variables
(prefix `STRIPE_TOKEN_`, non-empty value) are pairwise distinct, the resolver
returns exactly one entry per matching variable, from its lowercased suffix
to its value, and nothing else; and when no variable matches, the result is
the empty mapping, not an error. -/
theorem c9_resolver_mapping (env : List (String × String)) :
    (((env.filterMap tokenEntry).map Prod.fst).Nodup →
      getStripeClients env = env.filterMap tokenEntry) ∧
    ((∀ kv ∈ env, tokenEntry kv = none) → getStripeClients env = []) := by
  constructor
  · intro hnd
    unfold getStripeClients
    rw [foldl_clientsStep_eq]
    have hfresh : ∀ a ∈ (env.filterMap tokenEntry).map Prod.fst,
        hasKey [] a = false := by
      intro a _
      rfl
    rw [foldl_setKey_append (env.filterMap tokenEntry) [] hnd hfresh]
    simp
  · intro hnone
    unfold getStripeClients
    rw [foldl_clientsStep_eq]
    have hnil : env.filterMap tokenEntry = [] := by
      rw [List.filterMap_eq_nil_iff]
      exact hnone
    rw [hnil]
    rfl

set_option maxRecDepth 10000 in
theorem c9_resolver_mapping_witness :
    (((envEx.filterMap tokenEntry).map Prod.fst).Nodup ∧
      getStripeClients envEx = envEx.filterMap tokenEntry ∧
      envEx.filterMap tokenEntry = [ ( "main", "sk_test_123" ) ]) :=
  ⟨by decide, (c9_resolver_mapping envEx).1 (by decide), by decide⟩

end StripeConnect
